import Mathlib

/-!
Shallow embedding of the quote pricing engine and seasonal-rate logic of the
b2bbaliplatform backend (backend/routers/quotes.py and
backend/routers/seasonal_rates.py).

Monetary amounts are modelled as rationals (the Python code computes with
floats over exact decimal constants; all quantities in the verified claims
stay exact), party counts as naturals, and calendar dates as integers
(ordinal day numbers), so that date comparisons mirror Python `date` order.
-/

/-- `models.Package` restricted to the fields the pricing engine reads:
`id`, `duration`, `nights` (array of integers), `base_price`, `is_active`. -/
structure Package where
  id : ℕ
  duration : ℕ
  nights : List ℕ
  base_price : ℚ
  is_active : Bool
deriving Repr, DecidableEq

/-- `models.TierLevel` enumeration. -/
inductive TierLevel where
  | bronze
  | silver
  | gold
  | platinum
deriving Repr, DecidableEq

/-- `TIER_DISCOUNTS` dict in quotes.py: Bronze 5, Silver 10, Gold 15,
Platinum 20.  The code reads it with `.get(agent.tier, 0)`; the dict is
total on the enum, so the lookup is a total function. -/
def TIER_DISCOUNTS : TierLevel → ℚ
  | .bronze => 5
  | .silver => 10
  | .gold => 15
  | .platinum => 20

/-- One entry of the `VEHICLE_PRICING` table in quotes.py. -/
structure Vehicle where
  type : String
  capacity : ℕ
  price_per_day : ℚ
deriving Repr, DecidableEq

/-- `VEHICLE_PRICING` list in quotes.py, in source order (ascending capacity). -/
def VEHICLE_PRICING : List Vehicle :=
  [⟨"Avanza", 6, 35⟩, ⟨"Innova", 8, 45⟩, ⟨"ELF", 15, 65⟩, ⟨"Bus", 25, 85⟩]

/-- Return value of `calculate_rooms` in quotes.py. -/
structure RoomCalc where
  rooms : ℕ
  total_occupants : ℕ
  children_without_bed : ℕ
deriving Repr, DecidableEq

/-- `calculate_rooms` in quotes.py: children without bed are ignored,
`rooms = (total_bed_occupants + 1) // 2` (Python floor division, i.e. the
round-up of half), floored at 1 via `max(1, rooms)`. -/
def calculate_rooms (adults child_with_bed child_without_bed : ℕ) : RoomCalc :=
  let total_bed_occupants := adults + child_with_bed
  let rooms := (total_bed_occupants + 1) / 2
  { rooms := max 1 rooms
    total_occupants := total_bed_occupants
    children_without_bed := child_without_bed }

/-- `select_vehicle` in quotes.py: first entry of `VEHICLE_PRICING` whose
capacity is at least `total_pax`; the fallback `VEHICLE_PRICING[-1]`
(the Bus row) is returned when no entry fits. -/
def select_vehicle (total_pax : ℕ) : Vehicle :=
  (VEHICLE_PRICING.find? (fun v => decide (total_pax ≤ v.capacity))).getD
    ⟨"Bus", 25, 85⟩

/-- The `pax` dict as the engine reads it: `pax["adults"]`,
`pax.get("child_with_bed", 0)`, `pax.get("child_without_bed", 0)`,
`pax["total"]`. -/
structure Pax where
  adults : ℕ
  child_with_bed : ℕ
  child_without_bed : ℕ
  total : ℕ
deriving Repr, DecidableEq

/-- A hotel entry of a quote option: the engine reads only
`hotel["price_per_night"]`. -/
structure Hotel where
  price_per_night : ℚ
deriving Repr, DecidableEq

/-- An add-on entry of a quote option: the engine reads only `addon["price"]`. -/
structure AddOn where
  price : ℚ
deriving Repr, DecidableEq

/-- A quote option as the engine reads it: `option["hotels"]`,
`option.get("add_ons", [])`, `option.get("markup", 0)`,
`option.get("markup_type")`. -/
structure QuoteOption where
  hotels : List Hotel
  add_ons : List AddOn
  markup : ℚ
  markup_type : String
deriving Repr, DecidableEq

/-- `models.Agent` restricted to the only field the engine reads: `tier`. -/
structure Agent where
  tier : TierLevel
deriving Repr, DecidableEq

/-- `schemas.PricingBreakdown`. -/
structure PricingBreakdown where
  base_price : ℚ
  hotel_cost : ℚ
  vehicle_cost : ℚ
  addon_cost : ℚ
  tier_discount : ℚ
  markup : ℚ
  final_price : ℚ
deriving Repr, DecidableEq

/-- The body of the per-option loop of `calculate_quote_pricing` in quotes.py.
The hotel loop `for i, hotel in enumerate(option["hotels"])` reads
`package.nights[i] if i < len(package.nights) else 1`, rendered here with
`List.getD` (out-of-range index defaults to 1 night). -/
def price_option (package : Package) (option : QuoteOption) (pax : Pax)
    (agent : Agent) : PricingBreakdown :=
  let base_price : ℚ := package.base_price * pax.total
  let room_calc := calculate_rooms pax.adults pax.child_with_bed pax.child_without_bed
  let hotel_cost : ℚ := ∑ i ∈ Finset.range option.hotels.length,
    (option.hotels.getD i ⟨0⟩).price_per_night *
      (package.nights.getD i 1 : ℚ) * (room_calc.rooms : ℚ)
  let vehicle := select_vehicle pax.total
  let vehicle_cost : ℚ := vehicle.price_per_day * package.duration
  let addon_cost : ℚ := (option.add_ons.map (fun a => a.price * (pax.total : ℚ))).sum
  let subtotal := base_price + hotel_cost + vehicle_cost + addon_cost
  let tier_discount_amount := TIER_DISCOUNTS agent.tier * pax.total
  let discounted_price := subtotal - tier_discount_amount
  let markup_amount :=
    if option.markup_type = "percentage" then discounted_price * (option.markup / 100)
    else option.markup
  let final_price := discounted_price + markup_amount
  { base_price := base_price
    hotel_cost := hotel_cost
    vehicle_cost := vehicle_cost
    addon_cost := addon_cost
    tier_discount := tier_discount_amount
    markup := markup_amount
    final_price := final_price }

/-- `calculate_quote_pricing` in quotes.py: one `PricingBreakdown` per option,
in option order. -/
def calculate_quote_pricing (package : Package) (options : List QuoteOption)
    (pax : Pax) (agent : Agent) : List PricingBreakdown :=
  options.map (fun option => price_option package option pax agent)

/-- `models.SeasonalRate`: the fields read by seasonal_rates.py.  Dates are
ordinal day numbers; `fixed_price` is the nullable `Float` column. -/
structure SeasonalRate where
  id : ℕ
  package_id : ℕ
  season_name : String
  season_type : String
  start_date : ℤ
  end_date : ℤ
  price_multiplier : ℚ
  fixed_price : Option ℚ
  min_stay : ℕ
  is_active : Bool
deriving Repr, DecidableEq

/-- Python truthiness of the nullable `fixed_price` column, as tested by
`if seasonal_rate.fixed_price:` — `None` and `0` are falsy, every other
value is truthy. -/
def pyTruthy : Option ℚ → Bool
  | none => false
  | some q => decide (q ≠ 0)

/-- The filter of the seasonal-rate query in `calculate_seasonal_price`:
same package, active, and `start_date ≤ travel_date ≤ end_date`. -/
def rateMatches (package_id : ℕ) (travel_date : ℤ) (r : SeasonalRate) : Bool :=
  r.package_id == package_id && r.is_active &&
    decide (r.start_date ≤ travel_date) && decide (r.end_date ≥ travel_date)

/-- The `.first()` of the seasonal-rate query: the first row of the table
satisfying the filter. -/
def find_seasonal_rate (db : List SeasonalRate) (package_id : ℕ)
    (travel_date : ℤ) : Option SeasonalRate :=
  db.find? (rateMatches package_id travel_date)

/-- The nested `seasonal_rate` object of the response of
`calculate_seasonal_price`. -/
structure SeasonalRateInfo where
  id : ℕ
  season_name : String
  season_type : String
  price_multiplier : ℚ
  fixed_price : Option ℚ
deriving Repr, DecidableEq

/-- The response dict of `calculate_seasonal_price`: a top-level
`final_price` and an optional nested `seasonal_rate` object (absent — `None`
— when no rate matched; the response carries no other rate field). -/
structure SeasonalPriceResponse where
  package_id : ℕ
  travel_date : ℤ
  base_price : ℚ
  seasonal_rate : Option SeasonalRateInfo
  final_price : ℚ
deriving Repr, DecidableEq

/-- `calculate_seasonal_price` in seasonal_rates.py, after the package has
been resolved (the 404 branch for a missing package is outside the claims).
On a match: `fixed_price` wins when truthy, else `base_price * multiplier`;
on no match: `final_price = base_price` and `seasonal_rate = None`. -/
def calculate_seasonal_price (db : List SeasonalRate) (package : Package)
    (travel_date : ℤ) : SeasonalPriceResponse :=
  let base_price := package.base_price
  match find_seasonal_rate db package.id travel_date with
  | some seasonal_rate =>
    let final_price :=
      if pyTruthy seasonal_rate.fixed_price then seasonal_rate.fixed_price.getD 0
      else base_price * seasonal_rate.price_multiplier
    { package_id := package.id
      travel_date := travel_date
      base_price := base_price
      seasonal_rate := some ⟨seasonal_rate.id, seasonal_rate.season_name,
        seasonal_rate.season_type, seasonal_rate.price_multiplier,
        seasonal_rate.fixed_price⟩
      final_price := final_price }
  | none =>
    { package_id := package.id
      travel_date := travel_date
      base_price := base_price
      seasonal_rate := none
      final_price := base_price }

/-- `schemas.SeasonalRateCreate` (the request body of the create endpoint). -/
structure SeasonalRateCreate where
  package_id : ℕ
  season_name : String
  season_type : String
  start_date : ℤ
  end_date : ℤ
  price_multiplier : ℚ
  fixed_price : Option ℚ
  min_stay : ℕ
  is_active : Bool
deriving Repr, DecidableEq

/-- An `HTTPException` as raised by the routers: status code and detail. -/
structure HTTPErr where
  status_code : ℕ
  detail : String
deriving Repr, DecidableEq

/-- The overlap query of `create_seasonal_rate`: first existing rate of the
same package that is active and satisfies
`start_date ≤ new.end_date ∧ end_date ≥ new.start_date`. -/
def overlapQuery (db : List SeasonalRate) (req : SeasonalRateCreate) :
    Option SeasonalRate :=
  db.find? (fun r => r.package_id == req.package_id && r.is_active &&
    decide (r.start_date ≤ req.end_date) && decide (r.end_date ≥ req.start_date))

/-- The row inserted by `create_seasonal_rate` (fresh id plus the request
fields). -/
def mkRate (new_id : ℕ) (req : SeasonalRateCreate) : SeasonalRate :=
  { id := new_id
    package_id := req.package_id
    season_name := req.season_name
    season_type := req.season_type
    start_date := req.start_date
    end_date := req.end_date
    price_multiplier := req.price_multiplier
    fixed_price := req.fixed_price
    min_stay := req.min_stay
    is_active := req.is_active }

/-- `create_seasonal_rate` in seasonal_rates.py: 404 if the package does not
exist, 400 if `start_date >= end_date`, 400 if an active rate of the same
package overlaps the requested range, else append the new row. -/
def create_seasonal_rate (packages : List Package) (db : List SeasonalRate)
    (new_id : ℕ) (req : SeasonalRateCreate) :
    Except HTTPErr (List SeasonalRate) :=
  match packages.find? (fun p => p.id == req.package_id) with
  | none => .error ⟨404, "Package not found"⟩
  | some _ =>
    if req.start_date ≥ req.end_date then
      .error ⟨400, "Start date must be before end date"⟩
    else
      match overlapQuery db req with
      | some r =>
        .error ⟨400, "Seasonal rate overlaps with existing rate: " ++ r.season_name⟩
      | none => .ok (db ++ [mkRate new_id req])

/-- `schemas.SeasonalRateUpdate`: every field optional; `none` means the
field was not set in the request (`exclude_unset`).  For `fixed_price` the
set value is itself nullable. -/
structure SeasonalRateUpdate where
  season_name : Option String
  season_type : Option String
  start_date : Option ℤ
  end_date : Option ℤ
  price_multiplier : Option ℚ
  fixed_price : Option (Option ℚ)
  min_stay : Option ℕ
  is_active : Option Bool
deriving Repr, DecidableEq

/-- The `setattr` loop of `update_seasonal_rate`: overwrite exactly the set
fields. -/
def applyUpdate (upd : SeasonalRateUpdate) (r : SeasonalRate) : SeasonalRate :=
  { r with
    season_name := upd.season_name.getD r.season_name
    season_type := upd.season_type.getD r.season_type
    start_date := upd.start_date.getD r.start_date
    end_date := upd.end_date.getD r.end_date
    price_multiplier := upd.price_multiplier.getD r.price_multiplier
    fixed_price := upd.fixed_price.getD r.fixed_price
    min_stay := upd.min_stay.getD r.min_stay
    is_active := upd.is_active.getD r.is_active }

/-- Mutating the row found by `.first()`: rewrite the first row with the
given id, leave the rest unchanged. -/
def replaceFirst (db : List SeasonalRate) (rate_id : ℕ)
    (f : SeasonalRate → SeasonalRate) : List SeasonalRate :=
  match db with
  | [] => []
  | r :: rest =>
    if r.id == rate_id then f r :: rest
    else r :: replaceFirst rest rate_id f

/-- `update_seasonal_rate` in seasonal_rates.py: 404 if the rate does not
exist, 400 if the merged `start_date >= end_date`, else apply the update.
No overlap check is performed. -/
def update_seasonal_rate (db : List SeasonalRate) (rate_id : ℕ)
    (upd : SeasonalRateUpdate) : Except HTTPErr (List SeasonalRate) :=
  match db.find? (fun r => r.id == rate_id) with
  | none => .error ⟨404, "Seasonal rate not found"⟩
  | some r =>
    let start_date := upd.start_date.getD r.start_date
    let end_date := upd.end_date.getD r.end_date
    if start_date ≥ end_date then
      .error ⟨400, "Start date must be before end date"⟩
    else .ok (replaceFirst db rate_id (applyUpdate upd))

/-- A seasonal rate covers a calendar date when the date lies in its
inclusive `[start_date, end_date]` range. -/
def coversDate (r : SeasonalRate) (d : ℤ) : Prop :=
  r.start_date ≤ d ∧ d ≤ r.end_date

instance (r : SeasonalRate) (d : ℤ) : Decidable (coversDate r d) := by
  unfold coversDate; infer_instance

/-- The spec's formula for the hotel cost of an option with fewer hotel
entries than package legs, following the spec's words: the sum ranges over
each package leg; a leg whose hotel entry exists contributes
`price_per_night × nights[i] × rooms`; a leg with no corresponding hotel
entry carries no price (0) and its night count defaults to 1 night. -/
def spec_hotel_cost_short (hotels : List Hotel) (nights : List ℕ)
    (rooms : ℕ) : ℚ :=
  ∑ i ∈ Finset.range nights.length,
    match hotels[i]? with
    | some h => h.price_per_night * (nights.getD i 1 : ℚ) * (rooms : ℚ)
    | none => 0 * 1 * (rooms : ℚ)

/-- The claim's formula for the hotel cost when the option has more hotel
entries than package legs: every hotel entry is charged, with the night
count `nights[i]` when the leg exists and 1 otherwise. -/
def spec_hotel_cost_long (hotels : List Hotel) (nights : List ℕ)
    (rooms : ℕ) : ℚ :=
  ∑ i ∈ Finset.range hotels.length,
    (hotels.getD i ⟨0⟩).price_per_night *
      ((if h : i < nights.length then nights.get ⟨i, h⟩ else 1 : ℕ) : ℚ) *
      (rooms : ℚ)

/- ## Helper lemmas -/

/-- Round-up of half over ℕ, as computed by Python `(n + 1) // 2`, agrees
with the rational ceiling of `n / 2`. -/
lemma ceil_half (n : ℕ) : ⌈((n : ℚ)) / 2⌉ = (((n + 1) / 2 : ℕ) : ℤ) := by
  have h1 : 2 * ((n + 1) / 2) ≤ n + 1 := by omega
  have h2 : n ≤ 2 * ((n + 1) / 2) := by omega
  have hq1 : 2 * (((n + 1) / 2 : ℕ) : ℚ) ≤ (n : ℚ) + 1 := by exact_mod_cast h1
  have hq2 : ((n : ℚ)) ≤ 2 * (((n + 1) / 2 : ℕ) : ℚ) := by exact_mod_cast h2
  rw [Int.ceil_eq_iff]
  simp only [Int.cast_natCast]
  constructor <;> linarith

/-- Closed form of `select_vehicle`: the ascending scan of the four-row
table is the evident chain of capacity tests. -/
lemma select_vehicle_eq (n : ℕ) :
    select_vehicle n =
      if n ≤ 6 then ⟨"Avanza", 6, 35⟩
      else if n ≤ 8 then ⟨"Innova", 8, 45⟩
      else if n ≤ 15 then ⟨"ELF", 15, 65⟩
      else ⟨"Bus", 25, 85⟩ := by
  unfold select_vehicle VEHICLE_PRICING
  by_cases h6 : n ≤ 6 <;> by_cases h8 : n ≤ 8 <;> by_cases h15 : n ≤ 15 <;>
    by_cases h25 : n ≤ 25 <;>
    simp [List.find?, h6, h8, h15, h25]

/- ## Claim theorems -/

/-- Inputs of the end-to-end scenario of claim C1. -/
def pkgC1 : Package := ⟨1, 3, [1, 2], 100, true⟩

def optC1 : QuoteOption := ⟨[⟨50⟩, ⟨40⟩], [], 10, "percentage"⟩

def paxC1 : Pax := ⟨2, 0, 0, 2⟩

/-- C1: on the concrete scenario (base_price 100, duration 3, nights [1,2],
2 adults, hotels priced 50 and 40 per night, no add-ons, 10% markup,
Bronze tier) `calculate_quote_pricing` returns exactly one breakdown with
base_price 200, hotel_cost 130, vehicle_cost 105, addon_cost 0,
tier_discount 10, markup 42.5, final_price 467.5. -/
theorem end_to_end_scenario_C1 :
    calculate_quote_pricing pkgC1 [optC1] paxC1 ⟨.bronze⟩ =
      [⟨200, 130, 105, 0, 10, 42.5, 467.5⟩] := by
  simp only [calculate_quote_pricing, price_option, calculate_rooms, select_vehicle,
    VEHICLE_PRICING, TIER_DISCOUNTS, pkgC1, optC1, paxC1, List.map_cons, List.map_nil,
    List.find?]
  norm_num [PricingBreakdown.mk.injEq, Finset.sum_range_succ, Finset.sum_range_zero,
    List.getD]

/-- C5: `calculate_rooms` yields `max(1, ceil((adults + children_with_bed) / 2))`
rooms, is independent of the children-without-bed count, and the all-zero
party still gets 1 room. -/
theorem calculate_rooms_ceiling_C5 (a c1 c2 c2' : ℕ) :
    ((calculate_rooms a c1 c2).rooms : ℤ) = max 1 ⌈(((a + c1 : ℕ) : ℚ)) / 2⌉ ∧
    (calculate_rooms a c1 c2).rooms = (calculate_rooms a c1 c2').rooms ∧
    (calculate_rooms 0 0 0).rooms = 1 := by
  refine ⟨?_, rfl, rfl⟩
  rw [ceil_half (a + c1)]
  simp only [calculate_rooms]
  rw [Nat.cast_max]
  norm_num

/-- C6: `select_vehicle` picks the cheapest-capacity fitting tier: Avanza
for at most 6 pax, Innova for 7–8, ELF for 9–15, and Bus for every larger
party (also above 25, with no error); the choice always comes from the
table and has minimal capacity among the fitting rows. -/
theorem select_vehicle_tiers_C6 (n : ℕ) :
    (n ≤ 6 → (select_vehicle n).type = "Avanza") ∧
    (6 < n → n ≤ 8 → (select_vehicle n).type = "Innova") ∧
    (8 < n → n ≤ 15 → (select_vehicle n).type = "ELF") ∧
    (15 < n → (select_vehicle n).type = "Bus") ∧
    select_vehicle n ∈ VEHICLE_PRICING ∧
    (∀ v ∈ VEHICLE_PRICING, n ≤ v.capacity →
      (select_vehicle n).capacity ≤ v.capacity) := by
  rw [select_vehicle_eq]
  refine ⟨fun h6 => ?_, fun h6 h8 => ?_, fun h8 h15 => ?_, fun h15 => ?_, ?_, ?_⟩
  · rw [if_pos h6]
  · rw [if_neg (by omega), if_pos h8]
  · rw [if_neg (by omega), if_neg (by omega), if_pos h15]
  · rw [if_neg (by omega), if_neg (by omega), if_neg (by omega)]
  · split_ifs <;> simp [VEHICLE_PRICING]
  · intro v hv hcap
    fin_cases hv <;> split_ifs <;> simp_all

/-- Witness for C6 at concrete party sizes 3, 7, 12 and 30. -/
theorem select_vehicle_tiers_C6_witness :
    (select_vehicle 3).type = "Avanza" ∧ (select_vehicle 7).type = "Innova" ∧
    (select_vehicle 12).type = "ELF" ∧ (select_vehicle 30).type = "Bus" :=
  ⟨(select_vehicle_tiers_C6 3).1 (by norm_num),
   (select_vehicle_tiers_C6 7).2.1 (by norm_num) (by norm_num),
   (select_vehicle_tiers_C6 12).2.2.1 (by norm_num) (by norm_num),
   (select_vehicle_tiers_C6 30).2.2.2.1 (by norm_num)⟩

/-- C2: when an option supplies fewer hotel entries than the package has
legs, the engine's hotel cost agrees with the spec's per-leg formula in
which a leg without a hotel entry carries no price and defaults its night
count to 1. -/
theorem hotel_cost_short_C2 (package : Package) (option : QuoteOption)
    (pax : Pax) (agent : Agent)
    (h : option.hotels.length < package.nights.length) :
    (price_option package option pax agent).hotel_cost =
      spec_hotel_cost_short option.hotels package.nights
        (calculate_rooms pax.adults pax.child_with_bed pax.child_without_bed).rooms := by
  simp only [price_option, spec_hotel_cost_short]
  rw [Finset.sum_subset (Finset.range_subset.mpr h.le)]
  · apply Finset.sum_congr rfl
    intro i _
    by_cases hlt : i < option.hotels.length
    · rw [List.getElem?_eq_getElem hlt]
      simp [List.getD_eq_getElem?_getD, List.getElem?_eq_getElem hlt]
    · have hge : option.hotels.length ≤ i := not_lt.mp hlt
      rw [List.getElem?_eq_none hge]
      simp [List.getD_eq_getElem?_getD, List.getElem?_eq_none hge]
  · intro i _ hnot
    have hge : option.hotels.length ≤ i :=
      not_lt.mp (fun hc => hnot (Finset.mem_range.mpr hc))
    simp [List.getD_eq_getElem?_getD, List.getElem?_eq_none hge]

/-- Concrete inputs for the C2 witness: one hotel entry, two legs. -/
def pkgC2w : Package := ⟨2, 5, [2, 3], 80, true⟩

def optC2w : QuoteOption := ⟨[⟨10⟩], [], 0, "flat"⟩

def paxC2w : Pax := ⟨2, 1, 1, 4⟩

/-- Witness for C2. -/
theorem hotel_cost_short_C2_witness :
    (price_option pkgC2w optC2w paxC2w ⟨.silver⟩).hotel_cost =
      spec_hotel_cost_short optC2w.hotels pkgC2w.nights
        (calculate_rooms paxC2w.adults paxC2w.child_with_bed
          paxC2w.child_without_bed).rooms :=
  hotel_cost_short_C2 pkgC2w optC2w paxC2w ⟨.silver⟩ (by decide)

/-- C10: when an option supplies more hotel entries than the package has
legs, every entry is still charged, the night count defaulting to 1 for
entries beyond the last leg. -/
theorem hotel_cost_long_C10 (package : Package) (option : QuoteOption)
    (pax : Pax) (agent : Agent)
    (_h : package.nights.length < option.hotels.length) :
    (price_option package option pax agent).hotel_cost =
      spec_hotel_cost_long option.hotels package.nights
        (calculate_rooms pax.adults pax.child_with_bed pax.child_without_bed).rooms := by
  simp only [price_option, spec_hotel_cost_long]
  apply Finset.sum_congr rfl
  intro i _
  by_cases hi : i < package.nights.length
  · simp [List.getD_eq_getElem?_getD, List.getElem?_eq_getElem hi, hi,
      List.get_eq_getElem]
  · simp [List.getD_eq_getElem?_getD, List.getElem?_eq_none (not_lt.mp hi), hi]

/-- Concrete inputs for the C10 witness: three hotel entries, one leg. -/
def pkgC10w : Package := ⟨3, 4, [2], 60, true⟩

def optC10w : QuoteOption := ⟨[⟨10⟩, ⟨20⟩, ⟨30⟩], [], 5, "flat"⟩

def paxC10w : Pax := ⟨3, 0, 0, 3⟩

/-- Witness for C10. -/
theorem hotel_cost_long_C10_witness :
    (price_option pkgC10w optC10w paxC10w ⟨.gold⟩).hotel_cost =
      spec_hotel_cost_long optC10w.hotels pkgC10w.nights
        (calculate_rooms paxC10w.adults paxC10w.child_with_bed
          paxC10w.child_without_bed).rooms :=
  hotel_cost_long_C10 pkgC10w optC10w paxC10w ⟨.gold⟩ (by decide)

/-- Inputs exhibiting a negative final price: free package, zero-day
duration, no hotels or add-ons, two pax, Bronze discount 10. -/
def pkgC4 : Package := ⟨4, 0, [], 0, true⟩

def optC4 : QuoteOption := ⟨[], [], 0, "flat"⟩

def paxC4 : Pax := ⟨2, 0, 0, 2⟩

/-- C4 counterexample: the engine returns a breakdown whose `final_price`
is −10, strictly below zero — no flooring at 0 takes place. -/
theorem final_price_negative_C4_counterexample :
    calculate_quote_pricing pkgC4 [optC4] paxC4 ⟨.bronze⟩ =
      [⟨0, 0, 0, 0, 10, 0, -10⟩] ∧ (-10 : ℚ) < 0 := by
  constructor
  · simp only [calculate_quote_pricing, price_option, calculate_rooms, select_vehicle,
      VEHICLE_PRICING, TIER_DISCOUNTS, pkgC4, optC4, paxC4, List.map_cons, List.map_nil,
      List.find?]
    norm_num [PricingBreakdown.mk.injEq]
  · norm_num

/-- C4 amended: every breakdown's `final_price` is exactly
`subtotal − tier_discount + markup`, with no clamping; it is negative
whenever the tier discount exceeds subtotal plus markup. -/
theorem final_price_unclamped_C4 (package : Package) (options : List QuoteOption)
    (pax : Pax) (agent : Agent) (b : PricingBreakdown)
    (hb : b ∈ calculate_quote_pricing package options pax agent) :
    b.final_price = b.base_price + b.hotel_cost + b.vehicle_cost + b.addon_cost
      - b.tier_discount + b.markup := by
  simp only [calculate_quote_pricing, List.mem_map] at hb
  obtain ⟨option, -, rfl⟩ := hb
  simp only [price_option]

/-- Witness for the amended C4 at the concrete negative-price inputs. -/
theorem final_price_unclamped_C4_witness :
    (price_option pkgC4 optC4 paxC4 ⟨.bronze⟩).final_price =
      (price_option pkgC4 optC4 paxC4 ⟨.bronze⟩).base_price +
      (price_option pkgC4 optC4 paxC4 ⟨.bronze⟩).hotel_cost +
      (price_option pkgC4 optC4 paxC4 ⟨.bronze⟩).vehicle_cost +
      (price_option pkgC4 optC4 paxC4 ⟨.bronze⟩).addon_cost -
      (price_option pkgC4 optC4 paxC4 ⟨.bronze⟩).tier_discount +
      (price_option pkgC4 optC4 paxC4 ⟨.bronze⟩).markup :=
  final_price_unclamped_C4 pkgC4 [optC4] paxC4 ⟨.bronze⟩ _
    (by simp [calculate_quote_pricing])

/-- A matched active rate carrying `fixed_price = 0` together with a
multiplier of 2 over a base price of 100. -/
def rateC3 : SeasonalRate := ⟨7, 3, "Zero", "peak", 0, 10, 2, some 0, 1, true⟩

def pkgC3 : Package := ⟨3, 5, [1], 100, true⟩

/-- C3 counterexample: with `fixed_price = 0` the endpoint returns
`base_price × multiplier = 200`, not the fixed price 0 — Python truthiness
treats a zero fixed price as absent. -/
theorem fixed_price_zero_C3_counterexample :
    rateC3.fixed_price = some 0 ∧
    (calculate_seasonal_price [rateC3] pkgC3 5).final_price = 200 ∧
    (200 : ℚ) ≠ 0 ∧
    pkgC3.base_price * rateC3.price_multiplier = 200 := by
  refine ⟨rfl, ?_, by norm_num, by norm_num [pkgC3, rateC3]⟩
  simp only [calculate_seasonal_price, find_seasonal_rate, rateMatches, List.find?,
    rateC3, pkgC3, pyTruthy]
  norm_num

/-- C3 amended: the fixed price wins exactly when it is present AND
nonzero; a `fixed_price` of `None` or `0` falls back to
`base_price × multiplier`. -/
theorem fixed_price_truthy_C3 (db : List SeasonalRate) (package : Package)
    (d : ℤ) (r : SeasonalRate)
    (hfind : find_seasonal_rate db package.id d = some r) :
    (calculate_seasonal_price db package d).final_price =
      match r.fixed_price with
      | some f => if f ≠ 0 then f else package.base_price * r.price_multiplier
      | none => package.base_price * r.price_multiplier := by
  simp only [calculate_seasonal_price, hfind]
  cases hf : r.fixed_price with
  | none => simp [pyTruthy, hf]
  | some f =>
    by_cases hf0 : f = 0
    · simp [pyTruthy, hf, hf0]
    · simp [pyTruthy, hf, hf0]

/-- Witness for the amended C3 at the concrete zero-fixed-price rate. -/
theorem fixed_price_truthy_C3_witness :
    (calculate_seasonal_price [rateC3] pkgC3 5).final_price =
      match rateC3.fixed_price with
      | some f => if f ≠ 0 then f else pkgC3.base_price * rateC3.price_multiplier
      | none => pkgC3.base_price * rateC3.price_multiplier :=
  fixed_price_truthy_C3 [rateC3] pkgC3 5 rateC3 rfl

/-- A package and an active rate whose range [0, 50] does not cover the
travel date 100. -/
def pkgC7 : Package := ⟨9, 4, [2, 2], 299, true⟩

def rateC7 : SeasonalRate := ⟨11, 9, "Peak", "peak", 0, 50, 3/2, none, 1, true⟩

/-- C7 evaluation at the failing input: with no rate covering the travel
date, the response's `final_price` equals the base price, but the response
carries `seasonal_rate = None` — no multiplier (1.0 or otherwise) is
reported anywhere in it, contrary to the claim and to the repository's own
test `test_calculate_package_price_without_seasonal_rate`. -/
theorem no_match_response_C7 :
    (calculate_seasonal_price [rateC7] pkgC7 100).final_price = pkgC7.base_price ∧
    (calculate_seasonal_price [rateC7] pkgC7 100).seasonal_rate = none :=
  ⟨rfl, rfl⟩

/-- C8: `create_seasonal_rate` answers 400 whenever the requested range is
empty-or-reversed (`start ≥ end`) or shares a calendar date with an active
rate of the same package; and a successful creation guarantees
`start < end` and no shared covered date with any existing active rate of
the package. -/
theorem create_rejects_overlap_C8 (packages : List Package) (db : List SeasonalRate)
    (new_id : ℕ) (req : SeasonalRateCreate) :
    ((∃ p ∈ packages, p.id = req.package_id) →
      (req.end_date ≤ req.start_date ∨
        ∃ r ∈ db, r.package_id = req.package_id ∧ r.is_active = true ∧
          ∃ d : ℤ, req.start_date ≤ d ∧ d ≤ req.end_date ∧ coversDate r d) →
      ∃ e, create_seasonal_rate packages db new_id req = Except.error e ∧
        e.status_code = 400) ∧
    (∀ db', create_seasonal_rate packages db new_id req = Except.ok db' →
      req.start_date < req.end_date ∧
      ∀ r ∈ db, r.package_id = req.package_id → r.is_active = true →
        ∀ d : ℤ, req.start_date ≤ d → d ≤ req.end_date → ¬ coversDate r d) := by
  constructor
  · rintro ⟨p, hp, hpid⟩ hbad
    have hsome : (packages.find? (fun q => q.id == req.package_id)).isSome :=
      List.find?_isSome.mpr ⟨p, hp, by simp [hpid]⟩
    obtain ⟨p', hp'⟩ := Option.isSome_iff_exists.mp hsome
    by_cases hse : req.start_date ≥ req.end_date
    · refine ⟨⟨400, "Start date must be before end date"⟩, ?_, rfl⟩
      simp only [create_seasonal_rate, hp', if_pos hse]
    · rcases hbad with hle | ⟨r, hr, hpkg, hact, d, hd1, hd2, hc1, hc2⟩
      · exact absurd hle hse
      · have hov : (overlapQuery db req).isSome := by
          apply List.find?_isSome.mpr
          refine ⟨r, hr, ?_⟩
          simp only [Bool.and_eq_true, beq_iff_eq, decide_eq_true_eq]
          exact ⟨⟨⟨hpkg, hact⟩, by omega⟩, by omega⟩
        obtain ⟨r', hr'⟩ := Option.isSome_iff_exists.mp hov
        refine ⟨⟨400, "Seasonal rate overlaps with existing rate: " ++ r'.season_name⟩,
          ?_, rfl⟩
        simp only [create_seasonal_rate, hp', if_neg hse, hr']
  · intro db' hok
    cases hfp : packages.find? (fun q => q.id == req.package_id) with
    | none =>
      simp only [create_seasonal_rate, hfp] at hok
      exact Except.noConfusion hok
    | some p' =>
      simp only [create_seasonal_rate, hfp] at hok
      by_cases hse : req.start_date ≥ req.end_date
      · rw [if_pos hse] at hok
        exact Except.noConfusion hok
      · rw [if_neg hse] at hok
        cases hov : overlapQuery db req with
        | some r' =>
          simp only [hov] at hok
          exact Except.noConfusion hok
        | none =>
          refine ⟨by omega, ?_⟩
          intro r hr hpkg hact d hd1 hd2 hcov
          obtain ⟨hc1, hc2⟩ := hcov
          simp only [overlapQuery] at hov
          have hnone := List.find?_eq_none.mp hov r hr
          simp only [Bool.and_eq_true, beq_iff_eq, decide_eq_true_eq] at hnone
          exact hnone ⟨⟨⟨hpkg, hact⟩, by omega⟩, by omega⟩

/-- Concrete inputs for the C8 witness: a successful creation over an empty
table, and a rejected creation whose range [5, 15] meets the existing
rate's range [0, 10] at date 5. -/
def pkgC8w : Package := ⟨40, 2, [1], 50, true⟩

def reqC8w : SeasonalRateCreate := ⟨40, "S", "peak", 0, 10, 1, none, 1, true⟩

def rateC8w : SeasonalRate := mkRate 1 reqC8w

def reqC8ov : SeasonalRateCreate := ⟨40, "T", "high", 5, 15, 1, none, 1, true⟩

/-- Witness for C8: both clauses applied at concrete inputs. -/
theorem create_rejects_overlap_C8_witness :
    ((0 : ℤ) < 10) ∧
    (∃ e, create_seasonal_rate [pkgC8w] [rateC8w] 2 reqC8ov = Except.error e ∧
      e.status_code = 400) :=
  ⟨((create_rejects_overlap_C8 [pkgC8w] [] 1 reqC8w).2 _ rfl).1,
   (create_rejects_overlap_C8 [pkgC8w] [rateC8w] 2 reqC8ov).1
     ⟨pkgC8w, by simp, rfl⟩
     (Or.inr ⟨rateC8w, by simp, rfl, rfl, 5, by decide, by decide, by decide, by decide⟩)⟩

/-- The C9 scenario: an existing rate A of package 20 covering [10, 20];
a second rate B is created over [30, 40] (accepted, disjoint) and then
updated to [15, 25] — the update endpoint checks only the date order. -/
def pkgC9 : Package := ⟨20, 3, [1], 100, true⟩

def rateC9A : SeasonalRate := ⟨31, 20, "A", "peak", 10, 20, 3/2, none, 1, true⟩

def reqC9B : SeasonalRateCreate := ⟨20, "B", "high", 30, 40, 6/5, none, 1, true⟩

def updC9B : SeasonalRateUpdate := ⟨none, none, some 15, some 25, none, none, none, none⟩

def rateC9B : SeasonalRate := mkRate 32 reqC9B

def rateC9Bu : SeasonalRate := ⟨32, 20, "B", "high", 15, 25, 6/5, none, 1, true⟩

/-- C9: `update_seasonal_rate` succeeds whenever the rate exists and the
merged dates satisfy `start < end` — with no overlap check against other
rates — and consequently one create followed by one update leaves two
active rates of the same package both covering calendar date 18. -/
theorem update_no_overlap_check_C9 :
    (∀ (db : List SeasonalRate) (rate_id : ℕ) (upd : SeasonalRateUpdate)
        (r : SeasonalRate),
        db.find? (fun x => x.id == rate_id) = some r →
        upd.start_date.getD r.start_date < upd.end_date.getD r.end_date →
        ∃ db', update_seasonal_rate db rate_id upd = Except.ok db') ∧
    (∃ db1 db2 : List SeasonalRate,
        create_seasonal_rate [pkgC9] [rateC9A] 32 reqC9B = Except.ok db1 ∧
        update_seasonal_rate db1 32 updC9B = Except.ok db2 ∧
        ∃ r1 ∈ db2, ∃ r2 ∈ db2, r1.id ≠ r2.id ∧ r1.package_id = r2.package_id ∧
          r1.is_active = true ∧ r2.is_active = true ∧
          coversDate r1 18 ∧ coversDate r2 18) := by
  constructor
  · intro db rate_id upd r hfind hlt
    refine ⟨replaceFirst db rate_id (applyUpdate upd), ?_⟩
    simp only [update_seasonal_rate, hfind]
    rw [if_neg
      (by omega : ¬ upd.start_date.getD r.start_date ≥ upd.end_date.getD r.end_date)]
  · refine ⟨[rateC9A, rateC9B], [rateC9A, rateC9Bu], rfl, rfl,
      rateC9A, by simp, rateC9Bu, by simp, by decide, rfl, rfl, rfl,
      ⟨by decide, by decide⟩, ⟨by decide, by decide⟩⟩

/-- Witness for C9: the update of rate 32 in a table where rate A covers
[10, 20] succeeds with merged dates 15 < 25. -/
theorem update_no_overlap_check_C9_witness :
    ∃ db', update_seasonal_rate [rateC9A, rateC9B] 32 updC9B = Except.ok db' :=
  update_no_overlap_check_C9.1 [rateC9A, rateC9B] 32 updC9B rateC9B rfl (by decide)

/-- Witness for C5 at the concrete party (2 adults, 1 child with bed, and
children-without-bed counts 5 and 7). -/
theorem calculate_rooms_ceiling_C5_witness :
    ((calculate_rooms 2 1 5).rooms : ℤ) = max 1 ⌈(((2 + 1 : ℕ) : ℚ)) / 2⌉ ∧
    (calculate_rooms 2 1 5).rooms = (calculate_rooms 2 1 7).rooms ∧
    (calculate_rooms 0 0 0).rooms = 1 :=
  calculate_rooms_ceiling_C5 2 1 5 7
